import Mathlib

/-!
Shallow embedding of the Android `GoogleAuthModule` (react-native-google-auth):
the sign-in orchestrator, retry policy, token lifecycle tracking and the
secure credential cache, translated from the Kotlin source.  External
collaborators (the OS credential broker, Base64/JSON decoding of JWT payloads)
are modelled as parameters; all module logic is translated directly.
-/

namespace GoogleAuth

/-! ### String helpers

Kotlin classifies errors by `message.lowercase().contains(pattern)` with
lowercase pattern literals; `contains(pattern, ignoreCase = true)` lowercases
both sides.  We model strings as their character lists and implement the
substring search structurally so that everything reduces definitionally. -/

/-- `Char`-list prefix test (Kotlin substring search building block). -/
def isPrefixChars : List Char → List Char → Bool
  | [], _ => true
  | _ :: _, [] => false
  | p :: ps, c :: cs => p == c && isPrefixChars ps cs

/-- `hay` contains `pat` as a contiguous substring. -/
def containsChars (pat : List Char) : List Char → Bool
  | [] => pat.isEmpty
  | c :: cs => isPrefixChars pat (c :: cs) || containsChars pat cs

/-- Kotlin `msg.lowercase().contains(pat)` for a lowercase pattern literal. -/
def strContainsLower (msg pat : String) : Bool :=
  containsChars pat.data (msg.data.map Char.toLower)

/-! ### Exception model

The Kotlin code distinguishes exceptions by their class
(`GetCredentialCustomException`, `GetCredentialCancellationException`,
`NoCredentialException`, other `GetCredentialException`s,
`IllegalStateException`, `IllegalArgumentException`, generic `Exception`)
and by their (nullable) message. -/

inductive ExnKind where
  /-- `GetCredentialCustomException` with its `type` string. -/
  | custom (type : String)
  /-- `GetCredentialCancellationException`. -/
  | cancellation
  /-- `NoCredentialException`. -/
  | noCredential
  /-- any other `GetCredentialException`. -/
  | getCredentialOther
  /-- `IllegalStateException`. -/
  | illegalState
  /-- `IllegalArgumentException`. -/
  | illegalArgument
  /-- any other `Exception`. -/
  | generic
deriving DecidableEq

structure Exn where
  kind : ExnKind
  message : Option String
deriving DecidableEq

/-- Kotlin `e.localizedMessage ?: "Unknown error"`. -/
def Exn.msgOrUnknown (e : Exn) : String := e.message.getD "Unknown error"

/-- whether the exception is a `GetCredentialCustomException`. -/
def Exn.isCustom (e : Exn) : Bool :=
  match e.kind with
  | .custom _ => true
  | _ => false

/-- `isRetryableError` from the Kotlin module: keyword scan of the
lowercased message. -/
def isRetryableError (e : Exn) : Bool :=
  let m := e.message.getD ""
  strContainsLower m "network" ||
  strContainsLower m "timeout" ||
  strContainsLower m "connection" ||
  strContainsLower m "unavailable" ||
  strContainsLower m "service temporarily unavailable"

/-- `isNonRetryableConfigurationError` from the Kotlin module: keyword scan
of the lowercased message, plus the `IllegalStateException` /
`IllegalArgumentException` class checks. -/
def isNonRetryableConfigurationError (e : Exn) : Bool :=
  let m := e.message.getD ""
  strContainsLower m "configuration" ||
  strContainsLower m "invalid client" ||
  strContainsLower m "client id" ||
  strContainsLower m "oauth" ||
  strContainsLower m "developer console" ||
  strContainsLower m "api key" ||
  strContainsLower m "sha" ||
  strContainsLower m "fingerprint" ||
  e.kind == .illegalState ||
  e.kind == .illegalArgument

/-- In `executeWithRetry`, the catch clause for `GetCredentialCustomException`
retries only when `e.localizedMessage?.contains("network", ignoreCase = true)
== true`; every other exception retries when `isRetryableError` holds. -/
def retryCondition (e : Exn) : Bool :=
  if e.isCustom then
    match e.message with
    | some m => strContainsLower m "network"
    | none => false
  else isRetryableError e

/-! ### `executeWithRetry`

The Kotlin loop runs `while (retryCount <= maxRetries)`, invoking the
operation once per iteration; on a non-configuration failure with retries
remaining and a retryable error it increments `retryCount`, sleeps
`1000L * retryCount` ms and continues, otherwise it re-raises.  We embed the
loop structurally on the remaining budget (`maxRetries - retryCount`) and
record the number of invocations and the sequence of sleep delays.  The
operation is state-passing (`σ` models the module's mutable fields the
closure touches). -/

structure RunResult (α : Type) (σ : Type) where
  res : Except Exn α
  state : σ
  calls : Nat
  delays : List Nat

def retryLoop {α σ : Type} (op : Nat → σ → Except Exn α × σ) :
    Nat → Nat → Nat → List Nat → σ → RunResult α σ
  | budget, attempt, calls, delays, s =>
    match op calls s with
    | (.ok v, s') => ⟨.ok v, s', calls + 1, delays⟩
    | (.error e, s') =>
      if isNonRetryableConfigurationError e then ⟨.error e, s', calls + 1, delays⟩
      else
        match budget with
        | 0 => ⟨.error e, s', calls + 1, delays⟩
        | b + 1 =>
          if retryCondition e then
            retryLoop op b (attempt + 1) (calls + 1) (delays ++ [1000 * (attempt + 1)]) s'
          else ⟨.error e, s', calls + 1, delays⟩

/-- `executeWithRetry(maxRetries, operationName, operation)`. -/
def executeWithRetry {α σ : Type} (maxRetries : Nat)
    (op : Nat → σ → Except Exn α × σ) (s : σ) : RunResult α σ :=
  retryLoop op maxRetries 0 0 [] s

/-! ### Credential data model -/

/-- The cached user-profile record built in `handleCredentialResponse`
(`id` and `email` are always set there; `email` falls back to `id`). -/
structure UserInfo where
  id : String
  name : Option String
  email : String
  photo : Option String
  familyName : Option String
  givenName : Option String
deriving DecidableEq

/-- A value stored in `SharedPreferences`.  The serialized user-profile JSON
string is modelled by the record it serializes (the module is the only
writer and reader of that entry, via `toString`/`JSONObject`). -/
inductive PrefValue where
  | str (s : String)
  | int (n : Int)
  | bool (b : Bool)
  | user (u : UserInfo)
deriving DecidableEq

/-- The encrypted `SharedPreferences` key-value store. -/
def PrefStore : Type := String → Option PrefValue

def emptyPrefStore : PrefStore := fun _ => none

def PREF_ID_TOKEN : String := "id_token"
def PREF_ACCESS_TOKEN : String := "access_token"
def PREF_USER_INFO : String := "user_info"
def PREF_TOKEN_EXPIRES_AT : String := "token_expires_at"
def PREF_IS_SIGNED_IN : String := "is_signed_in"

/-- One `putX`/`remove` entry of an editor transaction (`none` = remove). -/
def setKey (s : PrefStore) (k : String) (v : Option PrefValue) : PrefStore :=
  fun k' => if k' = k then v else s k'

/-- Applying a whole editor transaction (everything between `edit()` and a
single `apply()`). -/
def applyTx (s : PrefStore) (tx : List (String × Option PrefValue)) : PrefStore :=
  tx.foldl (fun acc kv => setKey acc kv.1 kv.2) s

/-- The single editor transaction built by `saveCredentialsSecurely`:
conditional put/remove of the four credential entries plus the
unconditional signed-in flag, committed by one `apply()`. -/
def saveCredentialsTx (idToken accessToken : Option String)
    (userInfo : Option UserInfo) (expiresAt : Option Int) :
    List (String × Option PrefValue) :=
  [ (PREF_ID_TOKEN, idToken.map PrefValue.str),
    (PREF_ACCESS_TOKEN, accessToken.map PrefValue.str),
    (PREF_USER_INFO, userInfo.map PrefValue.user),
    (PREF_TOKEN_EXPIRES_AT, expiresAt.map PrefValue.int),
    (PREF_IS_SIGNED_IN, some (PrefValue.bool idToken.isSome)) ]

/-- `saveCredentialsSecurely`: the store after the transaction commits. -/
def saveCredentialsSecurely (s : PrefStore) (idToken accessToken : Option String)
    (userInfo : Option UserInfo) (expiresAt : Option Int) : PrefStore :=
  applyTx s (saveCredentialsTx idToken accessToken userInfo expiresAt)

/-- The single editor transaction built by `clearCredentialsSecurely`:
removal of all five entries, committed by one `apply()`. -/
def clearCredentialsTx : List (String × Option PrefValue) :=
  [ (PREF_ID_TOKEN, none), (PREF_ACCESS_TOKEN, none), (PREF_USER_INFO, none),
    (PREF_TOKEN_EXPIRES_AT, none), (PREF_IS_SIGNED_IN, none) ]

/-- `clearCredentialsSecurely` (persistent part): the store after the
removal transaction commits. -/
def clearStoreSecurely (s : PrefStore) : PrefStore :=
  applyTx s clearCredentialsTx

/-- Commit semantics of a single `apply()` of the underlying store: the
transaction lands in full, or (if interrupted before the commit point) not
at all — `SharedPreferences` commits an editor batch atomically. -/
def commitTx (interrupted : Bool) (s : PrefStore)
    (tx : List (String × Option PrefValue)) : PrefStore :=
  if interrupted then s else applyTx s tx

/-! ### Module state -/

/-- The mutable fields of `GoogleAuthModule` relevant to the session
lifecycle.  `clientId` is the value `getClientId()` resolves to
(`androidClientId ?: webClientId ?: google-services.json`). -/
structure ModState where
  isConfigured : Bool
  credentialManagerMode : String
  clientId : Option String
  cachedIdToken : Option String
  cachedAccessToken : Option String
  cachedUserInfo : Option UserInfo
  tokenExpiresAt : Option Int
  prefs : PrefStore

/-- Field initializers of a freshly constructed module, before any
`configure` call, over whatever the persistent store holds. -/
def freshState (prefs : PrefStore) (clientId : Option String) : ModState :=
  { isConfigured := false
    credentialManagerMode := "auto"
    clientId := clientId
    cachedIdToken := none
    cachedAccessToken := none
    cachedUserInfo := none
    tokenExpiresAt := none
    prefs := prefs }

/-! ### JWT payload parsing

`parseTokenExpiration` / `extractEmailFromIdToken` split the token on `"."`,
Base64-URL-decode the second segment and read a JSON claim; the decode and
JSON steps are external library calls, modelled by a `Codec` parameter whose
`.error` outcome stands for a thrown decoding/parsing exception. -/

structure Codec where
  /-- `Base64.decode` + `JSONObject` + `optLong("exp", 0)` on a payload
  segment; `.error` models a thrown exception. -/
  decodeExp : String → Except Unit Int
  /-- `Base64.decode` + `JSONObject` + `optString("email", null)`;
  `.error` models a thrown exception. -/
  decodeEmail : String → Except Unit (Option String)

/-- Kotlin `idToken.split(".")` on the character list. -/
def splitOnDot : List Char → List (List Char)
  | [] => [[]]
  | c :: cs =>
    let r := splitOnDot cs
    if c = '.' then [] :: r
    else
      match r with
      | [] => [[c]]
      | h :: t => (c :: h) :: t

/-- `parseTokenExpiration`: best-effort update of `tokenExpiresAt`.  Note
that on any failure (fewer than two segments, decode exception, or a
non-positive `exp`) the previous value is left untouched. -/
def parseTokenExpiration (codec : Codec) (idToken : String)
    (tokenExpiresAt : Option Int) : Option Int :=
  match splitOnDot idToken.data with
  | _ :: p1 :: _ =>
    match codec.decodeExp ⟨p1⟩ with
    | .ok exp => if exp > 0 then some (exp * 1000) else tokenExpiresAt
    | .error _ => tokenExpiresAt
  | _ => tokenExpiresAt

/-- `extractEmailFromIdToken`: best-effort email claim, `none` on failure. -/
def extractEmailFromIdToken (codec : Codec) (idToken : String) : Option String :=
  match splitOnDot idToken.data with
  | _ :: p1 :: _ =>
    match codec.decodeEmail ⟨p1⟩ with
    | .ok e => e
    | .error _ => none
  | _ => none

/-! ### Credential responses -/

/-- `GoogleIdTokenCredential` fields read by the module. -/
structure GoogleIdTokenCred where
  idToken : String
  id : String
  displayName : Option String
  profilePictureUri : Option String
  familyName : Option String
  givenName : Option String
deriving DecidableEq

/-- A broker `GetCredentialResponse` credential: either of the Google ID
token type (whose `createFrom` may throw a parsing exception, the `.error`
carrying its nullable message), or of an unexpected type. -/
inductive Credential where
  | googleIdToken (parsed : Except (Option String) GoogleIdTokenCred)
  | other (type : String)

/-- The `WritableMap` results `signIn` resolves with: the tagged
`success`/`configuration_error`/`cancelled` maps (a success carries the
id token, a null access token and the user map). -/
inductive ResultMap where
  | success (idToken : String) (user : UserInfo)
  | configError (message : String) (errorCode : String)
  | cancelled (message : String)
deriving DecidableEq

/-- `getDetailedErrorMessage` for a `GetCredentialCustomException`. -/
def getDetailedErrorMessage (type_ : String) (message : Option String) : String :=
  if type_ = "android.credentials.GetCredentialException.TYPE_USER_CANCELED" then
    "Sign-in was canceled by the user. Please try again."
  else if type_ = "android.credentials.GetCredentialException.TYPE_NO_CREDENTIAL" then
    "No Google account found on this device. Please add a Google account in device settings."
  else if type_ = "android.credentials.GetCredentialException.TYPE_INTERRUPTED" then
    "Sign-in was interrupted. Please try again."
  else if type_ = "android.credentials.GetCredentialException.TYPE_UNKNOWN" then
    "An unknown error occurred during sign-in. Please check your network connection and try again."
  else
    let m := message.getD "Unknown error"
    if strContainsLower m "developer_error" then
      "Developer console configuration error. Please verify your OAuth 2.0 Client ID configuration in Google Cloud Console and ensure the SHA-1 fingerprint is correctly added."
    else if strContainsLower m "network_error" then
      "Network error occurred. Please check your internet connection and try again."
    else if strContainsLower m "internal_error" then
      "Internal Google services error. Please try again later."
    else if strContainsLower m "invalid_account" then
      "Invalid Google account. Please try with a different account."
    else
      "Sign-in failed: " ++ m ++ ". Please check your configuration and try again."

/-- `handleCredentialResponse`: on a Google ID token credential, cache the
token, best-effort-parse its expiry, build the user record (email claim with
fallback to `id`), null the access token, persist all of it through
`saveCredentialsSecurely`, and return the tagged success map.  A parsing
failure or an unexpected credential type throws before any cache write. -/
def handleCredentialResponse (codec : Codec) (cred : Credential)
    (st : ModState) : Except Exn ResultMap × ModState :=
  match cred with
  | .googleIdToken parsed =>
    match parsed with
    | .error m =>
      (.error ⟨.generic, some ("Failed to parse Google ID token: " ++ m.getD "Unknown error")⟩, st)
    | .ok g =>
      let newExp := parseTokenExpiration codec g.idToken st.tokenExpiresAt
      let email := (extractEmailFromIdToken codec g.idToken).getD g.id
      let user : UserInfo :=
        ⟨g.id, g.displayName, email, g.profilePictureUri, g.familyName, g.givenName⟩
      let st' : ModState :=
        { st with
          cachedIdToken := some g.idToken
          tokenExpiresAt := newExp
          cachedAccessToken := none
          cachedUserInfo := some user
          prefs := saveCredentialsSecurely st.prefs (some g.idToken) none (some user) newExp }
      (.ok (.success g.idToken user), st')
  | .other t =>
    (.error ⟨.generic, some ("Unexpected credential type: " ++ t)⟩, st)

/-! ### Silent and interactive acquisition -/

/-- The unit of work `performSilentSignIn` hands to `executeWithRetry`:
resolve the client id (throwing `IllegalStateException` when absent), call
the broker with the filter-by-authorized-accounts option, process the
response.  The broker is a parameter giving the outcome of the i-th call. -/
def silentOp (codec : Codec) (broker : Nat → Except Exn Credential)
    (i : Nat) (st : ModState) : Except Exn ResultMap × ModState :=
  match st.clientId with
  | none => (.error ⟨.illegalState, some "No client ID available"⟩, st)
  | some _ =>
    match broker i with
    | .ok cred => handleCredentialResponse codec cred st
    | .error e => (.error e, st)

/-- `performSilentSignIn`: retry budget 2; afterwards a
`GetCredentialCustomException` is rewrapped as a generic developer-console
error and a `NoCredentialException` as a generic "No saved credential
found" error. -/
def performSilentSignIn (codec : Codec) (broker : Nat → Except Exn Credential)
    (st : ModState) : RunResult ResultMap ModState :=
  let r := executeWithRetry 2 (silentOp codec broker) st
  match r.res with
  | .ok _ => r
  | .error e =>
    if e.isCustom then
      ⟨.error ⟨.generic, some "Developer console is not set up correctly. Please verify your OAuth 2.0 Client ID configuration in Google Cloud Console and ensure the SHA-1 fingerprint is correctly added."⟩,
        r.state, r.calls, r.delays⟩
    else if e.kind == .noCredential then
      ⟨.error ⟨.generic, some "No saved credential found"⟩, r.state, r.calls, r.delays⟩
    else r

/-- The unit of work `performInteractiveSignIn` hands to `executeWithRetry`
(sign-in-with-Google option; same response processing). -/
def interactiveOp (codec : Codec) (broker : Nat → Except Exn Credential)
    (i : Nat) (st : ModState) : Except Exn ResultMap × ModState :=
  match st.clientId with
  | none => (.error ⟨.illegalState, some "No client ID available"⟩, st)
  | some _ =>
    match broker i with
    | .ok cred => handleCredentialResponse codec cred st
    | .error e => (.error e, st)

/-- The annotated message of the cancelled result returned when the broker
raises `GetCredentialCancellationException` (documented broker quirk). -/
def cancellationWorkaroundMessage : String :=
  "Sign-in was cancelled. This might be due to a known Credential Manager API issue. Please try recreating OAuth 2.0 Client IDs in Google Cloud Console if this persists."

/-- `performInteractiveSignIn`: retry budget 1; afterwards a
`GetCredentialCustomException` resolves to a `configuration_error` map, a
`GetCredentialCancellationException` resolves to a `cancelled` map with the
broker-quirk annotation, and any other failure is re-raised. -/
def performInteractiveSignIn (codec : Codec) (broker : Nat → Except Exn Credential)
    (st : ModState) : RunResult ResultMap ModState :=
  let r := executeWithRetry 1 (interactiveOp codec broker) st
  match r.res with
  | .ok _ => r
  | .error e =>
    match e.kind with
    | .custom t =>
      ⟨.ok (.configError (getDetailedErrorMessage t e.message) t), r.state, r.calls, r.delays⟩
    | .cancellation =>
      ⟨.ok (.cancelled cancellationWorkaroundMessage), r.state, r.calls, r.delays⟩
    | _ => r

/-! ### Bridge-visible operations -/

/-- How a bridge call terminates: `promise.resolve` or `promise.reject`. -/
inductive Outcome (α : Type) where
  | resolved (v : α)
  | rejected (code : String) (message : String)
deriving DecidableEq

/-- `signIn`: configuration check, activity check, then the mode-dependent
acquisition ladder.  The silent-mode branch catches silent failures with its
own error message; in auto mode (the `else` branch) a silent failure is
caught and interactive acquisition runs, whose own failure reaches the outer
catch. -/
def signIn (codec : Codec) (st : ModState) (activity : Option Unit)
    (silentBroker interactiveBroker : Nat → Except Exn Credential) :
    Outcome ResultMap × ModState :=
  if !st.isConfigured then
    (.rejected "NOT_CONFIGURED" "GoogleAuth must be configured before signing in", st)
  else
    match activity with
    | none =>
      (.rejected "NO_ACTIVITY" "No valid activity available. Please ensure the app is in the foreground.", st)
    | some _ =>
      if st.credentialManagerMode = "silent" then
        let r := performSilentSignIn codec silentBroker st
        match r.res with
        | .ok v => (.resolved v, r.state)
        | .error e =>
          (.rejected "SIGN_IN_ERROR"
            ("Silent sign-in failed. No saved credentials found or user not previously authorized: " ++ e.msgOrUnknown),
            r.state)
      else if st.credentialManagerMode = "interactive" then
        let r := performInteractiveSignIn codec interactiveBroker st
        match r.res with
        | .ok v => (.resolved v, r.state)
        | .error e =>
          (.rejected "SIGN_IN_ERROR" ("Sign in failed: " ++ e.msgOrUnknown), r.state)
      else
        let r := performSilentSignIn codec silentBroker st
        match r.res with
        | .ok v => (.resolved v, r.state)
        | .error _ =>
          let r2 := performInteractiveSignIn codec interactiveBroker r.state
          match r2.res with
          | .ok v => (.resolved v, r2.state)
          | .error e =>
            (.rejected "SIGN_IN_ERROR" ("Sign in failed: " ++ e.msgOrUnknown), r2.state)

/-- `loadCredentialsSecurely`: nothing is loaded unless the signed-in flag
is set; otherwise the four credential entries repopulate the in-memory
cache (a non-positive stored expiry loads as absent, per
`takeIf { it > 0 }`), and the result tells whether an id token was found. -/
def loadCredentialsSecurely (st : ModState) : Bool × ModState :=
  if st.prefs PREF_IS_SIGNED_IN ≠ some (.bool true) then (false, st)
  else
    let idT := match st.prefs PREF_ID_TOKEN with
      | some (.str s) => some s
      | _ => none
    let aT := match st.prefs PREF_ACCESS_TOKEN with
      | some (.str s) => some s
      | _ => none
    let exp := match st.prefs PREF_TOKEN_EXPIRES_AT with
      | some (.int n) => if n > 0 then some n else none
      | _ => none
    let u := match st.prefs PREF_USER_INFO with
      | some (.user v) => some v
      | _ => none
    (idT.isSome,
      { st with cachedIdToken := idT, cachedAccessToken := aT,
                tokenExpiresAt := exp, cachedUserInfo := u })

/-- `isTokenExpired`: no stored expiry is reported expired; otherwise the
wall clock (`now`, epoch ms) is compared against the expiry. -/
def isTokenExpiredOp (st : ModState) (now : Int) : Outcome Bool :=
  match st.tokenExpiresAt with
  | none => .resolved true
  | some expiresAt => .resolved (decide (now ≥ expiresAt))

/-- `getCurrentUser`: lazily load from the secure store when the in-memory
cache is empty, then resolve a copy of the cached profile or `null`. -/
def getCurrentUser (st : ModState) : Outcome (Option UserInfo) × ModState :=
  let st₁ := if st.cachedUserInfo = none then (loadCredentialsSecurely st).2 else st
  match st₁.cachedUserInfo with
  | some u => (.resolved (some u), st₁)
  | none => (.resolved none, st₁)

/-- The token response maps of `getTokens`/`refreshTokens` (only the latter
adds `expiresAt`). -/
structure TokenResponse where
  idToken : Option String
  accessToken : Option String
  user : Option UserInfo
  expiresAt : Option Int
deriving DecidableEq

/-- `getTokens`: configuration check, lazy load, serve from cache, else fall
back to silent re-acquisition. -/
def getTokens (codec : Codec) (st : ModState) (activity : Option Unit)
    (silentBroker : Nat → Except Exn Credential) :
    Outcome TokenResponse × ModState :=
  if !st.isConfigured then
    (.rejected "NOT_CONFIGURED" "GoogleAuth must be configured before getting tokens", st)
  else
    let st₁ := if st.cachedIdToken = none then (loadCredentialsSecurely st).2 else st
    if st₁.cachedIdToken.isSome && st₁.cachedUserInfo.isSome then
      (.resolved ⟨st₁.cachedIdToken, st₁.cachedAccessToken, st₁.cachedUserInfo, none⟩, st₁)
    else
      match activity with
      | none => (.rejected "NO_ACTIVITY" "No current activity available", st₁)
      | some _ =>
        let r := performSilentSignIn codec silentBroker st₁
        match r.res with
        | .ok (.success _ _) =>
          (.resolved ⟨r.state.cachedIdToken, r.state.cachedAccessToken, r.state.cachedUserInfo, none⟩,
            r.state)
        | .ok _ =>
          (.rejected "SIGN_IN_REQUIRED" "getTokens requires re-authentication with Credential Manager",
            r.state)
        | .error e =>
          (.rejected "GET_TOKENS_ERROR" ("Failed to get tokens: " ++ e.msgOrUnknown), r.state)

/-- `refreshTokens`: configuration check, then silent re-acquisition, the
response including the refreshed expiry. -/
def refreshTokens (codec : Codec) (st : ModState) (activity : Option Unit)
    (silentBroker : Nat → Except Exn Credential) :
    Outcome TokenResponse × ModState :=
  if !st.isConfigured then
    (.rejected "NOT_CONFIGURED" "GoogleAuth must be configured before refreshing tokens", st)
  else
    match activity with
    | none => (.rejected "NO_ACTIVITY" "No current activity available", st)
    | some _ =>
      let r := performSilentSignIn codec silentBroker st
      match r.res with
      | .ok (.success _ _) =>
        (.resolved ⟨r.state.cachedIdToken, r.state.cachedAccessToken, r.state.cachedUserInfo,
            r.state.tokenExpiresAt⟩, r.state)
      | .ok _ => (.rejected "REFRESH_FAILED" "Failed to refresh tokens", r.state)
      | .error e =>
        (.rejected "REFRESH_ERROR" ("Failed to refresh tokens: " ++ e.msgOrUnknown), r.state)

/-! ### Secure store creation -/

inductive StorageKind where
  | encrypted
  | unencrypted
deriving DecidableEq

/-- Message of the `SecurityException` thrown when encrypted storage cannot
be created. -/
def securityErrorMessage : String :=
  "Unable to create secure storage for credentials. Encrypted storage is required for security."

/-- The `securePrefs` lazy initializer: build the `EncryptedSharedPreferences`
(whose creation, a key-material operation, may fail — the parameter); on
failure throw a `SecurityException` instead of falling back to an
unencrypted store. -/
def securePrefsInit (createEncrypted : Except String Unit) :
    Except String StorageKind :=
  match createEncrypted with
  | .ok _ => .ok .encrypted
  | .error _ => .error securityErrorMessage

/-! ### Auxiliary statement-level definitions -/

/-- The backoff delays slept by a run that keeps retrying: starting at
attempt counter `attempt`, a budget of `n` further retries sleeps
`1000 * (attempt + 1), 1000 * (attempt + 2), …`. -/
def delaysFrom (attempt : Nat) : Nat → List Nat
  | 0 => []
  | b + 1 => 1000 * (attempt + 1) :: delaysFrom (attempt + 1) b

/-- Whether a bridge call resolved (as opposed to rejecting). -/
def Outcome.isResolved {α : Type} : Outcome α → Bool
  | .resolved _ => true
  | .rejected _ _ => false

/-- A token whose expiry claim actually parses: at least two dot-separated
segments and a payload whose decode yields a positive `exp`.  Its negation
is "malformed or not a JWT" in the sense of `parseTokenExpiration`. -/
def hasParsableExp (codec : Codec) (idToken : String) : Bool :=
  match splitOnDot idToken.data with
  | _ :: p1 :: _ =>
    match codec.decodeExp ⟨p1⟩ with
    | .ok exp => decide (exp > 0)
    | .error _ => false
  | _ => false

/-! ### Concrete instances for witnesses and counterexamples -/

/-- A codec whose payload decodes always throw (arbitrary; many concrete
runs below never reach it). -/
def cCodec : Codec := ⟨fun _ => .error (), fun _ => .error ()⟩

/-- A transient broker failure (network-signature message). -/
def cNetworkErr : Exn := ⟨.generic, some "network timeout"⟩

/-- A unit of work that raises a transient error on every invocation. -/
def cAlwaysNetworkOp : Nat → Unit → Except Exn Unit × Unit :=
  fun _ s => (.error cNetworkErr, s)

/-- A configuration-class failure. -/
def cConfigErr : Exn := ⟨.generic, some "invalid client id"⟩

/-- A unit of work that raises a configuration-class error. -/
def cConfigOp : Nat → Unit → Except Exn Unit × Unit :=
  fun _ s => (.error cConfigErr, s)

/-- A configured module state in the given credential-manager mode. -/
def cConfiguredState (mode : String) : ModState :=
  { isConfigured := true
    credentialManagerMode := mode
    clientId := some "12345-abc.apps.googleusercontent.com"
    cachedIdToken := none
    cachedAccessToken := none
    cachedUserInfo := none
    tokenExpiresAt := none
    prefs := emptyPrefStore }

/-- A broker that never has a saved credential. -/
def cNoCredBroker : Nat → Except Exn Credential :=
  fun _ => .error ⟨.noCredential, some "no saved credential"⟩

/-- A broker that always fails transiently. -/
def cNetBroker : Nat → Except Exn Credential :=
  fun _ => .error cNetworkErr

/-- A broker whose interactive flow the user cancels. -/
def cCancelBroker : Nat → Except Exn Credential :=
  fun _ => .error ⟨.cancellation, some "activity is cancelled by the user."⟩

/-- A broker returning a well-formed Google ID token credential. -/
def cGoogleCred : GoogleIdTokenCred := ⟨"tok", "uid", none, none, none, none⟩

def cOkBroker : Nat → Except Exn Credential :=
  fun _ => .ok (.googleIdToken (.ok cGoogleCred))

/-- A malformed (non-JWT) credential: its id token has no dot. -/
def cMalformedCred : Credential :=
  .googleIdToken (.ok ⟨"garbage", "uid", none, none, none, none⟩)

/-- A state that already holds a parsed expiry, about to process a new
malformed token. -/
def cStaleExpiryState : ModState :=
  { cConfiguredState "auto" with tokenExpiresAt := some 5000 }

/-- A persisted user profile. -/
def cUserRec : UserInfo := ⟨"uid", some "Jane", "jane@example.com", none, none, none⟩

/-! ## Theorems -/

/-! ### Retry-policy lemmas -/

theorem delaysFrom_eq_map :
    ∀ (n attempt : Nat),
      delaysFrom attempt n = (List.range n).map (fun k => 1000 * (attempt + k + 1)) := by
  intro n
  induction n with
  | zero => intro attempt; rfl
  | succ m ih =>
    intro attempt
    show 1000 * (attempt + 1) :: delaysFrom (attempt + 1) m = _
    rw [ih (attempt + 1), List.range_succ_eq_map, List.map_cons, List.map_map]
    simp [Function.comp, Nat.add_assoc, Nat.add_comm, Nat.add_left_comm]

theorem retryLoop_const_error {α σ : Type} (op : Nat → σ → Except Exn α × σ) (e : Exn)
    (hop : ∀ i s', op i s' = (.error e, s'))
    (hcfg : isNonRetryableConfigurationError e = false)
    (hret : retryCondition e = true) :
    ∀ (budget attempt calls : Nat) (delays : List Nat) (s : σ),
      retryLoop op budget attempt calls delays s =
        ⟨.error e, s, calls + budget + 1, delays ++ delaysFrom attempt budget⟩ := by
  have hcfg' : ¬ (isNonRetryableConfigurationError e = true) := by simp [hcfg]
  intro budget
  induction budget with
  | zero =>
    intro attempt calls delays s
    unfold retryLoop
    simp only [hop]
    simp [hcfg, delaysFrom]
  | succ b ih =>
    intro attempt calls delays s
    unfold retryLoop
    simp only [hop, hcfg', Bool.false_eq_true, if_false, hret, if_true]
    rw [ih (attempt + 1) (calls + 1) (delays ++ [1000 * (attempt + 1)]) s]
    simp only [List.append_assoc, List.singleton_append]
    congr 1
    omega

theorem retryLoop_calls_le {α σ : Type} (op : Nat → σ → Except Exn α × σ) :
    ∀ (budget attempt calls : Nat) (delays : List Nat) (s : σ),
      (retryLoop op budget attempt calls delays s).calls ≤ calls + budget + 1 := by
  intro budget
  induction budget with
  | zero =>
    intro attempt calls delays s
    unfold retryLoop
    rcases hop : op calls s with ⟨r, s'⟩
    cases r with
    | ok v => simp
    | error e =>
      by_cases hc : isNonRetryableConfigurationError e = true
      · simp [hc]
      · simp [hc]
  | succ b ih =>
    intro attempt calls delays s
    unfold retryLoop
    rcases hop : op calls s with ⟨r, s'⟩
    cases r with
    | ok v => simp
    | error e =>
      by_cases hc : isNonRetryableConfigurationError e = true
      · simp [hc]
      · by_cases hr : retryCondition e = true
        · simp only [hc, Bool.false_eq_true, if_false, hr, if_true]
          have h := ih (attempt + 1) (calls + 1) (delays ++ [1000 * (attempt + 1)]) s'
          calc (retryLoop op b (attempt + 1) (calls + 1)
                  (delays ++ [1000 * (attempt + 1)]) s').calls
              ≤ calls + 1 + b + 1 := h
            _ ≤ calls + (b + 1) + 1 := by omega
        · simp [hc, hr]

theorem retryLoop_error_state {α σ : Type} (op : Nat → σ → Except Exn α × σ)
    (hop : ∀ i s e, (op i s).1 = .error e → (op i s).2 = s) :
    ∀ (budget attempt calls : Nat) (delays : List Nat) (s : σ) (e : Exn),
      (retryLoop op budget attempt calls delays s).res = .error e →
      (retryLoop op budget attempt calls delays s).state = s := by
  intro budget
  induction budget with
  | zero =>
    intro attempt calls delays s e h
    unfold retryLoop at h ⊢
    rcases hope : op calls s with ⟨r, s2⟩
    rw [hope] at h
    cases r with
    | ok v => simp at h
    | error e2 =>
      have hs2 : s2 = s := by
        have h2 := hop calls s e2
        rw [hope] at h2
        exact h2 rfl
      by_cases hc : isNonRetryableConfigurationError e2 = true
      · simp [hc, hs2]
      · simp [hc, hs2]
  | succ b ih =>
    intro attempt calls delays s e h
    unfold retryLoop at h ⊢
    rcases hope : op calls s with ⟨r, s2⟩
    rw [hope] at h
    cases r with
    | ok v => simp at h
    | error e2 =>
      have hs2 : s2 = s := by
        have h2 := hop calls s e2
        rw [hope] at h2
        exact h2 rfl
      by_cases hc : isNonRetryableConfigurationError e2 = true
      · simp [hc, hs2]
      · by_cases hr : retryCondition e2 = true
        · simp only [hc, Bool.false_eq_true, if_false, hr, if_true] at h ⊢
          rw [hs2] at h ⊢
          exact ih (attempt + 1) (calls + 1) (delays ++ [1000 * (attempt + 1)]) s e h
        · simp [hc, hr, hs2]

/-! ### C1 and C2 -/

/-- C1: for a unit of work that raises a transient (retryable) error on
every invocation, `executeWithRetry` invokes it exactly `maxRetries + 1`
times, sleeping between consecutive invocations for `attempt_count × 1000`
ms — a strictly increasing sequence of delays — and re-raises the error. -/
theorem executeWithRetry_retryBudget {α σ : Type} (maxRetries : Nat)
    (op : Nat → σ → Except Exn α × σ) (e : Exn) (s : σ)
    (hop : ∀ i s', op i s' = (.error e, s'))
    (htransient : isRetryableError e = true)
    (hnotCustom : e.isCustom = false)
    (hcfg : isNonRetryableConfigurationError e = false) :
    executeWithRetry maxRetries op s =
      ⟨.error e, s, maxRetries + 1,
        (List.range maxRetries).map (fun k => 1000 * (k + 1))⟩ ∧
    List.Chain' (· < ·) ((List.range maxRetries).map (fun k => 1000 * (k + 1))) := by
  have hret : retryCondition e = true := by
    unfold retryCondition
    rw [hnotCustom]
    simpa using htransient
  constructor
  · have h := retryLoop_const_error op e hop hcfg hret maxRetries 0 0 [] s
    unfold executeWithRetry
    rw [h, delaysFrom_eq_map]
    simp
  · rw [List.chain'_map]
    cases maxRetries with
    | zero => simp
    | succ n =>
      rw [List.chain'_range_succ]
      intro m _
      omega

/-- C1 witness: with `maxRetries = 2` and an always-failing transient
operation, the work runs 3 times with delays 1000 then 2000 ms. -/
theorem executeWithRetry_retryBudget_witness :
    (∀ i s', cAlwaysNetworkOp i s' = (.error cNetworkErr, s')) ∧
    isRetryableError cNetworkErr = true ∧
    cNetworkErr.isCustom = false ∧
    isNonRetryableConfigurationError cNetworkErr = false ∧
    executeWithRetry 2 cAlwaysNetworkOp () = ⟨.error cNetworkErr, (), 3, [1000, 2000]⟩ := by
  refine ⟨fun i s' => rfl, rfl, rfl, rfl, ?_⟩
  have h := (executeWithRetry_retryBudget 2 cAlwaysNetworkOp cNetworkErr ()
    (fun i s' => rfl) rfl rfl rfl).1
  simpa using h

/-- C2: for a unit of work whose (first) invocation raises a
configuration-class error, `executeWithRetry` invokes it exactly once,
sleeps never, and re-raises immediately, regardless of `maxRetries`. -/
theorem executeWithRetry_configImmediate {α σ : Type} (maxRetries : Nat)
    (op : Nat → σ → Except Exn α × σ) (e : Exn) (s s' : σ)
    (hop : op 0 s = (.error e, s'))
    (hcfg : isNonRetryableConfigurationError e = true) :
    executeWithRetry maxRetries op s = ⟨.error e, s', 1, []⟩ := by
  unfold executeWithRetry retryLoop
  rw [hop]
  simp [hcfg]

/-- C2 witness: with `maxRetries = 5`, a configuration-class error is
re-raised after a single invocation. -/
theorem executeWithRetry_configImmediate_witness :
    cConfigOp 0 () = (.error cConfigErr, ()) ∧
    isNonRetryableConfigurationError cConfigErr = true ∧
    executeWithRetry 5 cConfigOp () = ⟨.error cConfigErr, (), 1, []⟩ :=
  ⟨rfl, rfl, executeWithRetry_configImmediate 5 cConfigOp cConfigErr () () rfl rfl⟩

/-! ### State-preservation lemmas: failed acquisitions never write -/

theorem handleCredentialResponse_error_state (codec : Codec) (cred : Credential)
    (st : ModState) (e : Exn)
    (h : (handleCredentialResponse codec cred st).1 = .error e) :
    (handleCredentialResponse codec cred st).2 = st := by
  unfold handleCredentialResponse at h ⊢
  cases cred with
  | googleIdToken parsed =>
    cases parsed with
    | error m => rfl
    | ok g => simp at h
  | other t => rfl

theorem silentOp_error_state (codec : Codec) (broker : Nat → Except Exn Credential) :
    ∀ i st e, (silentOp codec broker i st).1 = .error e →
      (silentOp codec broker i st).2 = st := by
  intro i st e h
  unfold silentOp at h ⊢
  cases hcid : st.clientId with
  | none => rfl
  | some c =>
    rw [hcid] at h
    cases hb : broker i with
    | error e2 => rfl
    | ok cred =>
      rw [hb] at h
      exact handleCredentialResponse_error_state codec cred st e h

theorem interactiveOp_error_state (codec : Codec) (broker : Nat → Except Exn Credential) :
    ∀ i st e, (interactiveOp codec broker i st).1 = .error e →
      (interactiveOp codec broker i st).2 = st := by
  intro i st e h
  unfold interactiveOp at h ⊢
  cases hcid : st.clientId with
  | none => rfl
  | some c =>
    rw [hcid] at h
    cases hb : broker i with
    | error e2 => rfl
    | ok cred =>
      rw [hb] at h
      exact handleCredentialResponse_error_state codec cred st e h

theorem performSilentSignIn_error_state (codec : Codec)
    (broker : Nat → Except Exn Credential) (st : ModState) (e : Exn)
    (h : (performSilentSignIn codec broker st).res = .error e) :
    (performSilentSignIn codec broker st).state = st := by
  unfold performSilentSignIn at h ⊢
  rcases hr : executeWithRetry 2 (silentOp codec broker) st with ⟨res, s2, n, ds⟩
  rw [hr] at h
  have hstate : ∀ e', res = .error e' → s2 = st := by
    intro e' he
    have hL := retryLoop_error_state (silentOp codec broker)
      (silentOp_error_state codec broker) 2 0 0 [] st e'
    have hE : retryLoop (silentOp codec broker) 2 0 0 [] st
        = executeWithRetry 2 (silentOp codec broker) st := rfl
    rw [hE, hr] at hL
    exact hL he
  cases res with
  | ok v => exact Except.noConfusion h
  | error e2 =>
    have hs2 := hstate e2 rfl
    dsimp only at h ⊢
    by_cases hcu : e2.isCustom = true
    · simp [hcu, hs2]
    · by_cases hnc : (e2.kind == ExnKind.noCredential) = true
      · simp [hcu, hnc, hs2]
      · simp [hcu, hnc, hs2]

/-! ### C3 -/

/-- C3: in auto mode (the default), `signIn` runs silent acquisition first;
when it fails — for any reason `e` — interactive acquisition runs from the
unchanged state and its outcome (resolve on a result map, reject on a
thrown error) is exactly what the caller receives: the conclusion does not
depend on the silent failure, which is swallowed. -/
theorem signIn_auto_swallowsSilentFailure (codec : Codec) (st : ModState)
    (sb ib : Nat → Except Exn Credential) (e : Exn)
    (hconf : st.isConfigured = true)
    (hmode : st.credentialManagerMode = "auto")
    (hsilent : (performSilentSignIn codec sb st).res = .error e) :
    signIn codec st (some ()) sb ib =
      (match (performInteractiveSignIn codec ib st).res with
       | .ok v => Outcome.resolved v
       | .error e2 =>
         Outcome.rejected "SIGN_IN_ERROR" ("Sign in failed: " ++ e2.msgOrUnknown),
       (performInteractiveSignIn codec ib st).state) := by
  have hst := performSilentSignIn_error_state codec sb st e hsilent
  unfold signIn
  rw [hconf, hmode]
  simp only [Bool.not_true, Bool.false_eq_true, if_false]
  rw [if_neg (by decide : ¬ ("auto" = "silent")),
      if_neg (by decide : ¬ ("auto" = "interactive"))]
  rcases hps : performSilentSignIn codec sb st with ⟨res, s2, n, ds⟩
  rw [hps] at hsilent hst
  subst hsilent
  have hs2 : s2 = st := hst
  rw [hs2]
  rcases h2 : performInteractiveSignIn codec ib st with ⟨res2, s3, n2, ds2⟩
  dsimp only
  cases res2 with
  | ok v => rfl
  | error e2 => rfl

/-- C3 witness: silent finds no saved credential, interactive runs and its
outcome is delivered. -/
theorem signIn_auto_swallowsSilentFailure_witness :
    (cConfiguredState "auto").isConfigured = true ∧
    (cConfiguredState "auto").credentialManagerMode = "auto" ∧
    (performSilentSignIn cCodec cNoCredBroker (cConfiguredState "auto")).res =
      .error ⟨.generic, some "No saved credential found"⟩ ∧
    signIn cCodec (cConfiguredState "auto") (some ()) cNoCredBroker cOkBroker =
      (match (performInteractiveSignIn cCodec cOkBroker (cConfiguredState "auto")).res with
       | .ok v => Outcome.resolved v
       | .error e2 =>
         Outcome.rejected "SIGN_IN_ERROR" ("Sign in failed: " ++ e2.msgOrUnknown),
       (performInteractiveSignIn cCodec cOkBroker (cConfiguredState "auto")).state) :=
  ⟨rfl, rfl, rfl,
    signIn_auto_swallowsSilentFailure cCodec (cConfiguredState "auto") cNoCredBroker
      cOkBroker ⟨.generic, some "No saved credential found"⟩ rfl rfl rfl⟩

/-! ### C4 -/

/-- C4 counterexample: in silent mode the retry policy hands the silent work
`maxRetries = 2`, i.e. up to 3 invocations — a persistently transient broker
failure is invoked 3 times, refuting "at most 2 times". -/
theorem signIn_silent_maxTwoAttempts_counterexample :
    (performSilentSignIn cCodec cNetBroker (cConfiguredState "silent")).calls = 3 ∧
    ¬ ((performSilentSignIn cCodec cNetBroker (cConfiguredState "silent")).calls ≤ 2) := by
  have h : (performSilentSignIn cCodec cNetBroker (cConfiguredState "silent")).calls = 3 := rfl
  refine ⟨h, ?_⟩
  intro hle
  rw [h] at hle
  omega

/-- C4 (amended): in silent mode the silent acquisition work is invoked at
most 3 times (retry counter bounded by `maxRetries = 2`, so `maxRetries + 1`
invocations), and on any silent failure `signIn` rejects with the silent
error — for every interactive broker, i.e. without ever falling back to
interactive acquisition. -/
theorem signIn_silent_bounded_noFallback (codec : Codec) (st : ModState)
    (sb : Nat → Except Exn Credential) (e : Exn)
    (hconf : st.isConfigured = true)
    (hmode : st.credentialManagerMode = "silent")
    (hfail : (performSilentSignIn codec sb st).res = .error e) :
    (performSilentSignIn codec sb st).calls ≤ 3 ∧
    ∀ ib, signIn codec st (some ()) sb ib =
      (.rejected "SIGN_IN_ERROR"
        ("Silent sign-in failed. No saved credentials found or user not previously authorized: "
          ++ e.msgOrUnknown),
        (performSilentSignIn codec sb st).state) := by
  constructor
  · have hle := retryLoop_calls_le (silentOp codec sb) 2 0 0 [] st
    unfold performSilentSignIn
    rcases hr : executeWithRetry 2 (silentOp codec sb) st with ⟨res, s2, n, ds⟩
    have hE : retryLoop (silentOp codec sb) 2 0 0 [] st
        = executeWithRetry 2 (silentOp codec sb) st := rfl
    rw [hE, hr] at hle
    have hn : n ≤ 3 := by simpa using hle
    cases res with
    | ok v => exact hn
    | error e2 =>
      dsimp only
      by_cases hcu : e2.isCustom = true
      · rw [if_pos hcu]
        exact hn
      · rw [if_neg hcu]
        by_cases hnc : (e2.kind == ExnKind.noCredential) = true
        · rw [if_pos hnc]
          exact hn
        · rw [if_neg hnc]
          exact hn
  · intro ib
    unfold signIn
    rw [hconf, hmode]
    simp only [Bool.not_true, Bool.false_eq_true, if_false]
    simp only [if_true]
    rcases hps : performSilentSignIn codec sb st with ⟨res, s2, n, ds⟩
    rw [hps] at hfail
    subst hfail
    rfl

/-- C4 witness: a persistently transient silent failure ends after 3
invocations with a rejection, for any interactive broker. -/
theorem signIn_silent_bounded_noFallback_witness :
    (cConfiguredState "silent").isConfigured = true ∧
    (cConfiguredState "silent").credentialManagerMode = "silent" ∧
    (performSilentSignIn cCodec cNetBroker (cConfiguredState "silent")).res =
      .error cNetworkErr ∧
    ((performSilentSignIn cCodec cNetBroker (cConfiguredState "silent")).calls ≤ 3 ∧
     ∀ ib, signIn cCodec (cConfiguredState "silent") (some ()) cNetBroker ib =
       (.rejected "SIGN_IN_ERROR"
         ("Silent sign-in failed. No saved credentials found or user not previously authorized: "
           ++ cNetworkErr.msgOrUnknown),
         (performSilentSignIn cCodec cNetBroker (cConfiguredState "silent")).state)) :=
  ⟨rfl, rfl, rfl,
    signIn_silent_bounded_noFallback cCodec (cConfiguredState "silent") cNetBroker
      cNetworkErr rfl rfl rfl⟩

/-! ### C5 -/

/-- C5: when the broker raises a cancellation exception during interactive
acquisition, the run resolves to the `cancelled` result annotated with the
broker-quirk message — not a failure — and the entire module state (the
in-memory credential cache and the persistent store) is exactly what it was
before the call. -/
theorem interactiveCancellation_noWrite (codec : Codec) (st : ModState)
    (sb ib : Nat → Except Exn Credential) (m : Option String) (c : String)
    (hconf : st.isConfigured = true)
    (hmode : st.credentialManagerMode = "interactive")
    (hclient : st.clientId = some c)
    (hbroker : ∀ i, ib i = .error ⟨.cancellation, m⟩) :
    (performInteractiveSignIn codec ib st).res =
      .ok (.cancelled cancellationWorkaroundMessage) ∧
    (performInteractiveSignIn codec ib st).state = st ∧
    signIn codec st (some ()) sb ib =
      (.resolved (.cancelled cancellationWorkaroundMessage), st) := by
  have hop : ∀ i, interactiveOp codec ib i st = (.error ⟨.cancellation, m⟩, st) := by
    intro i
    unfold interactiveOp
    rw [hclient, hbroker i]
  have hrun : (executeWithRetry 1 (interactiveOp codec ib) st).res =
        .error ⟨.cancellation, m⟩ ∧
      (executeWithRetry 1 (interactiveOp codec ib) st).state = st := by
    unfold executeWithRetry retryLoop
    simp only [hop]
    by_cases hc : isNonRetryableConfigurationError ⟨.cancellation, m⟩ = true
    · simp [hc]
    · by_cases hr : retryCondition ⟨.cancellation, m⟩ = true
      · simp only [hc, Bool.false_eq_true, if_false, hr, if_true]
        unfold retryLoop
        simp only [hop]
        simp [hc]
      · simp [hc, hr]
  have hPres : (performInteractiveSignIn codec ib st).res =
      .ok (.cancelled cancellationWorkaroundMessage) := by
    unfold performInteractiveSignIn
    rcases hr2 : executeWithRetry 1 (interactiveOp codec ib) st with ⟨res, s2, n, ds⟩
    rw [hr2] at hrun
    obtain ⟨hres, -⟩ := hrun
    subst hres
    rfl
  have hPstate : (performInteractiveSignIn codec ib st).state = st := by
    unfold performInteractiveSignIn
    rcases hr2 : executeWithRetry 1 (interactiveOp codec ib) st with ⟨res, s2, n, ds⟩
    rw [hr2] at hrun
    obtain ⟨hres, hstate⟩ := hrun
    subst hres
    exact hstate
  refine ⟨hPres, hPstate, ?_⟩
  unfold signIn
  rw [hconf, hmode]
  simp only [Bool.not_true, Bool.false_eq_true, if_false]
  simp only [if_true]
  rcases hr2 : performInteractiveSignIn codec ib st with ⟨res, s2, n, ds⟩
  rw [hr2] at hPres hPstate
  subst hPres
  rw [hPstate]
  rw [if_neg (by decide : ¬ ("interactive" = "silent"))]

/-- C5 witness: a cancelling broker in interactive mode resolves `cancelled`
with the annotation, leaving the concrete state untouched. -/
theorem interactiveCancellation_noWrite_witness :
    (cConfiguredState "interactive").isConfigured = true ∧
    (cConfiguredState "interactive").credentialManagerMode = "interactive" ∧
    (cConfiguredState "interactive").clientId =
      some "12345-abc.apps.googleusercontent.com" ∧
    (∀ i, cCancelBroker i =
      .error ⟨.cancellation, some "activity is cancelled by the user."⟩) ∧
    signIn cCodec (cConfiguredState "interactive") (some ()) cNetBroker cCancelBroker =
      (.resolved (.cancelled cancellationWorkaroundMessage), cConfiguredState "interactive") :=
  ⟨rfl, rfl, rfl, fun _ => rfl,
    (interactiveCancellation_noWrite cCodec (cConfiguredState "interactive") cNetBroker
      cCancelBroker (some "activity is cancelled by the user.")
      "12345-abc.apps.googleusercontent.com" rfl rfl rfl (fun _ => rfl)).2.2⟩

/-! ### C6 -/

/-- C6: `isTokenExpired` reports a session with no stored expiry timestamp
as expired, and with a stored expiry compares the wall clock at call time:
expired exactly when the current time has reached or passed the expiry. -/
theorem isTokenExpired_spec (st : ModState) (now : Int) :
    (st.tokenExpiresAt = none → isTokenExpiredOp st now = .resolved true) ∧
    (∀ t, st.tokenExpiresAt = some t →
      (isTokenExpiredOp st now = .resolved true ↔ now ≥ t)) := by
  constructor
  · intro h
    unfold isTokenExpiredOp
    rw [h]
  · intro t h
    unfold isTokenExpiredOp
    rw [h]
    simp

/-- C6 witness: no expiry resolves expired; expiry 5 at time 7 is expired
exactly because 7 ≥ 5. -/
theorem isTokenExpired_spec_witness :
    ((freshState emptyPrefStore none).tokenExpiresAt = none ∧
      isTokenExpiredOp (freshState emptyPrefStore none) 7 = .resolved true) ∧
    (({ freshState emptyPrefStore none with
          tokenExpiresAt := some 5 } : ModState).tokenExpiresAt = some 5 ∧
      (isTokenExpiredOp { freshState emptyPrefStore none with
          tokenExpiresAt := some 5 } 7 = .resolved true ↔ (7 : Int) ≥ 5)) :=
  ⟨⟨rfl, (isTokenExpired_spec (freshState emptyPrefStore none) 7).1 rfl⟩,
   ⟨rfl, (isTokenExpired_spec { freshState emptyPrefStore none with
       tokenExpiresAt := some 5 } 7).2 5 rfl⟩⟩

/-! ### C7 -/

/-- C7 counterexample: processing a malformed (non-JWT) token from a state
that already holds a parsed expiry stores the stale previous expiry (5000)
alongside the new token — not "no expiry timestamp". -/
theorem recordIssuance_noExpiry_counterexample :
    (handleCredentialResponse cCodec cMalformedCred cStaleExpiryState).2.tokenExpiresAt
      = some 5000 ∧
    (handleCredentialResponse cCodec cMalformedCred cStaleExpiryState).2.prefs
      PREF_TOKEN_EXPIRES_AT = some (.int 5000) ∧
    ¬ ((handleCredentialResponse cCodec cMalformedCred cStaleExpiryState).2.prefs
      PREF_TOKEN_EXPIRES_AT = none) := by
  refine ⟨rfl, rfl, ?_⟩
  intro h
  rw [show (handleCredentialResponse cCodec cMalformedCred cStaleExpiryState).2.prefs
      PREF_TOKEN_EXPIRES_AT = some (.int 5000) from rfl] at h
  exact Option.noConfusion h

/-- C7 (amended): recording a newly issued token parses its expiry claim
best-effort and the parsing step never raises — processing a valid
credential whose id token is malformed or not a JWT still succeeds — but
the expiry is left UNCHANGED rather than cleared: the record is stored with
no expiry only when no expiry was previously cached, and a stale prior
expiry is retained and stored alongside the new token. -/
theorem recordIssuance_bestEffort (codec : Codec) (g : GoogleIdTokenCred) (st : ModState)
    (h : hasParsableExp codec g.idToken = false) :
    parseTokenExpiration codec g.idToken st.tokenExpiresAt = st.tokenExpiresAt ∧
    ∃ v st', handleCredentialResponse codec (.googleIdToken (.ok g)) st = (.ok v, st') ∧
      st'.tokenExpiresAt = st.tokenExpiresAt ∧
      st'.prefs PREF_TOKEN_EXPIRES_AT = st.tokenExpiresAt.map PrefValue.int := by
  have hparse : parseTokenExpiration codec g.idToken st.tokenExpiresAt
      = st.tokenExpiresAt := by
    unfold parseTokenExpiration
    unfold hasParsableExp at h
    rcases hs : splitOnDot g.idToken.data with _ | ⟨p0, rest⟩
    · rfl
    · cases rest with
      | nil => rfl
      | cons p1 rest2 =>
        rw [hs] at h
        dsimp only at h ⊢
        cases hd : codec.decodeExp ⟨p1⟩ with
        | error u => rfl
        | ok exp =>
          rw [hd] at h
          dsimp only at h
          have hexp : ¬ (exp > 0) := of_decide_eq_false h
          simp [hexp]
  refine ⟨hparse, ⟨_, _, rfl, ?_, ?_⟩⟩
  · exact hparse
  · show (parseTokenExpiration codec g.idToken st.tokenExpiresAt).map PrefValue.int
        = st.tokenExpiresAt.map PrefValue.int
    rw [hparse]

/-- C7 witness: from a fresh state, a non-JWT token is processed without an
error and stored with no expiry. -/
theorem recordIssuance_bestEffort_witness :
    hasParsableExp cCodec "garbage" = false ∧
    (parseTokenExpiration cCodec "garbage" none = none ∧
     ∃ v st', handleCredentialResponse cCodec
        (.googleIdToken (.ok ⟨"garbage", "uid", none, none, none, none⟩))
        (freshState emptyPrefStore none) = (.ok v, st') ∧
      st'.tokenExpiresAt = none ∧
      st'.prefs PREF_TOKEN_EXPIRES_AT = none) :=
  ⟨rfl, recordIssuance_bestEffort cCodec ⟨"garbage", "uid", none, none, none, none⟩
    (freshState emptyPrefStore none) rfl⟩

/-! ### C8 -/

/-- C8: when the encrypted store cannot be created, the `securePrefs`
initializer fails closed, raising the security error; no outcome of the
initializer is ever an unencrypted store. -/
theorem securePrefs_failClosed (c : Except String Unit) (m : String)
    (h : c = .error m) :
    securePrefsInit c = .error securityErrorMessage ∧
    ∀ c', securePrefsInit c' ≠ .ok .unencrypted := by
  constructor
  · rw [h]
    rfl
  · intro c' hc
    cases c' with
    | ok u => simp [securePrefsInit] at hc
    | error m2 => simp [securePrefsInit] at hc

/-- C8 witness: a failed key-material setup raises instead of persisting. -/
theorem securePrefs_failClosed_witness :
    (Except.error "keystore unavailable" : Except String Unit)
      = .error "keystore unavailable" ∧
    (securePrefsInit (.error "keystore unavailable") = .error securityErrorMessage ∧
     ∀ c', securePrefsInit c' ≠ .ok .unencrypted) :=
  ⟨rfl, securePrefs_failClosed (.error "keystore unavailable") "keystore unavailable" rfl⟩

/-! ### C9 -/

/-- C9: `saveCredentialsSecurely` writes the five persisted entries in one
editor transaction whose commit yields exactly the fully-updated store (all
five entries reflecting the new record), and `clearCredentialsSecurely`
removes the same five in one transaction; under the store's atomic commit
the observable store is either the previous one or the fully-applied one —
never a mix of old and new fields. -/
theorem credentials_atomic_unit (interrupted : Bool) (store : PrefStore)
    (idT aT : Option String) (u : Option UserInfo) (e : Option Int) :
    (commitTx interrupted store (saveCredentialsTx idT aT u e) = store ∨
      commitTx interrupted store (saveCredentialsTx idT aT u e) =
        saveCredentialsSecurely store idT aT u e) ∧
    saveCredentialsSecurely store idT aT u e PREF_ID_TOKEN = idT.map PrefValue.str ∧
    saveCredentialsSecurely store idT aT u e PREF_ACCESS_TOKEN = aT.map PrefValue.str ∧
    saveCredentialsSecurely store idT aT u e PREF_USER_INFO = u.map PrefValue.user ∧
    saveCredentialsSecurely store idT aT u e PREF_TOKEN_EXPIRES_AT = e.map PrefValue.int ∧
    saveCredentialsSecurely store idT aT u e PREF_IS_SIGNED_IN =
      some (PrefValue.bool idT.isSome) ∧
    (commitTx interrupted store clearCredentialsTx = store ∨
      commitTx interrupted store clearCredentialsTx = clearStoreSecurely store) ∧
    clearStoreSecurely store PREF_ID_TOKEN = none ∧
    clearStoreSecurely store PREF_ACCESS_TOKEN = none ∧
    clearStoreSecurely store PREF_USER_INFO = none ∧
    clearStoreSecurely store PREF_TOKEN_EXPIRES_AT = none ∧
    clearStoreSecurely store PREF_IS_SIGNED_IN = none := by
  refine ⟨?_, rfl, rfl, rfl, rfl, rfl, ?_, rfl, rfl, rfl, rfl, rfl⟩
  · cases interrupted with
    | false => exact Or.inr rfl
    | true => exact Or.inl rfl
  · cases interrupted with
    | false => exact Or.inr rfl
    | true => exact Or.inl rfl

/-! ### C10 -/

theorem getCurrentUser_isResolved (st : ModState) :
    ((getCurrentUser st).1).isResolved = true := by
  simp only [getCurrentUser]
  by_cases hcu : st.cachedUserInfo = none
  · rw [if_pos hcu]
    cases hX : (loadCredentialsSecurely st).2.cachedUserInfo
    · rfl
    · rfl
  · rw [if_neg hcu]
    cases hX : st.cachedUserInfo
    · rfl
    · rfl

/-- C10: before any `configure` call (`isConfigured` still false), `signIn`,
`getTokens` and `refreshTokens` all reject with `NOT_CONFIGURED`, while
`isTokenExpired` performs no configuration check and resolves `true`, and
`getCurrentUser` performs no configuration check and always resolves —
with the persisted user profile when the store holds a saved session, and
with `null` on an empty store. -/
theorem preConfigure_behavior (codec : Codec) (prefs : PrefStore)
    (cid : Option String) (act : Option Unit) (now : Int)
    (sb ib : Nat → Except Exn Credential) :
    (signIn codec (freshState prefs cid) act sb ib).1 =
      .rejected "NOT_CONFIGURED" "GoogleAuth must be configured before signing in" ∧
    (getTokens codec (freshState prefs cid) act sb).1 =
      .rejected "NOT_CONFIGURED" "GoogleAuth must be configured before getting tokens" ∧
    (refreshTokens codec (freshState prefs cid) act sb).1 =
      .rejected "NOT_CONFIGURED" "GoogleAuth must be configured before refreshing tokens" ∧
    isTokenExpiredOp (freshState prefs cid) now = .resolved true ∧
    ((getCurrentUser (freshState prefs cid)).1).isResolved = true ∧
    (∀ t u e2, prefs = saveCredentialsSecurely emptyPrefStore (some t) none (some u) e2 →
      (getCurrentUser (freshState prefs cid)).1 = .resolved (some u)) ∧
    (prefs = emptyPrefStore → (getCurrentUser (freshState prefs cid)).1 = .resolved none) := by
  refine ⟨rfl, rfl, rfl, rfl, getCurrentUser_isResolved _, ?_, ?_⟩
  · intro t u e2 hpre
    subst hpre
    rfl
  · intro hpre
    subst hpre
    rfl

/-- C10 witness: on a store persisted by a save, the unconfigured module
resolves the stored profile; on an empty store it resolves null; the expiry
query resolves true. -/
theorem preConfigure_behavior_witness :
    (getCurrentUser (freshState (saveCredentialsSecurely emptyPrefStore (some "tok") none
        (some cUserRec) (some 1000)) none)).1 = .resolved (some cUserRec) ∧
    (getCurrentUser (freshState emptyPrefStore none)).1 = .resolved none ∧
    isTokenExpiredOp (freshState emptyPrefStore none) 0 = .resolved true :=
  ⟨(preConfigure_behavior cCodec (saveCredentialsSecurely emptyPrefStore (some "tok") none
      (some cUserRec) (some 1000)) none none 0 cNoCredBroker cNoCredBroker).2.2.2.2.2.1
      "tok" cUserRec (some 1000) rfl,
   (preConfigure_behavior cCodec emptyPrefStore none none 0 cNoCredBroker
      cNoCredBroker).2.2.2.2.2.2 rfl,
   (preConfigure_behavior cCodec emptyPrefStore none none 0 cNoCredBroker
      cNoCredBroker).2.2.2.1⟩

end GoogleAuth
